import Mathlib

/-!
Shallow embedding of the job/workflow execution core of the taskflow-ai
repository, and proofs of the spec's testable properties about it.

The embedding covers:
* `WorkflowService.execute_workflow` / `_execute_step` and the four step
  handlers (src/app/services/workflow_service.py);
* `ProcessingService._process_job_async`, the per-type progress loops,
  `cancel_job` and `get_system_status` (src/app/services/processing_service.py);
* the Celery task `process_document_batch` (src/app/tasks/document_tasks.py).

Database sessions are modelled by explicit state passing; `self.db.commit()`
calls are recorded in an explicit trace so that claims about what is
persisted, and in which order, can be stated.  Timestamps are rationals
supplied as parameters (one per `datetime.utcnow()` call site), floats are
rationals, and Python exceptions are `Except String`.
-/

namespace Taskflow

/-! ## Workflow records (src/app/models/document.py, class Workflow) -/

/-- One entry of `Workflow.steps`: the JSON dict stored per step; the code
reads `step_id`, `step_type` and `config` from it (`config` is ignored by
every handler, but carried for fidelity). -/
structure Step where
  step_id : String
  step_type : String
  config : List (String × String)
deriving DecidableEq, Repr

/-- The `Workflow` row as far as `execute_workflow` touches it: the run
counters and the stored step list. -/
structure Workflow where
  total_runs : Nat
  successful_runs : Nat
  failed_runs : Nat
  steps : List Step
deriving DecidableEq, Repr

/-- Observable events of one `execute_workflow` call: the invocation of
`_execute_step` for a step (the `await self._execute_step(...)` call), and a
`self.db.commit()` persisting the workflow row snapshot. -/
inductive Event where
  | invoke (step_id : String) (step_type : String)
  | commit (w : Workflow)
deriving DecidableEq, Repr

/-! ## Step handlers (workflow_service.py lines 132-177)

Each `async def _execute_*_step(self, config)` is Python code that returns a
bool but may also raise; it is embedded as `config → Except String Bool`.
The four handlers shipped in the source all execute `await asyncio.sleep(...)`
first — but workflow_service.py never imports asyncio (its imports are lines
5-10 only), so at runtime each handler raises NameError before reaching its
`return True`.  They are therefore embedded as always raising. -/

/-- The four step handlers `_execute_step` can dispatch to. -/
structure StepHandlers where
  text_extraction : List (String × String) → Except String Bool
  ai_analysis : List (String × String) → Except String Bool
  categorization : List (String × String) → Except String Bool
  notification : List (String × String) → Except String Bool

/-- `_execute_text_extraction_step` (lines 151-156): raises NameError at
`await asyncio.sleep(1)` (asyncio is never imported in this module); the
`return True` after it is unreachable. -/
def execute_text_extraction_step (_config : List (String × String)) : Except String Bool :=
  .error "NameError: asyncio is not defined"

/-- `_execute_ai_analysis_step` (lines 158-163): raises NameError at
`await asyncio.sleep(2)` (asyncio is never imported in this module). -/
def execute_ai_analysis_step (_config : List (String × String)) : Except String Bool :=
  .error "NameError: asyncio is not defined"

/-- `_execute_categorization_step` (lines 165-170): raises NameError at
`await asyncio.sleep(1)` (asyncio is never imported in this module). -/
def execute_categorization_step (_config : List (String × String)) : Except String Bool :=
  .error "NameError: asyncio is not defined"

/-- `_execute_notification_step` (lines 172-177): raises NameError at
`await asyncio.sleep(0.5)` (asyncio is never imported in this module). -/
def execute_notification_step (_config : List (String × String)) : Except String Bool :=
  .error "NameError: asyncio is not defined"

/-- The handler table as shipped in the source: every handler raises
NameError, which `_execute_step` catches and converts to False. -/
def defaultHandlers : StepHandlers :=
  { text_extraction := execute_text_extraction_step
    ai_analysis := execute_ai_analysis_step
    categorization := execute_categorization_step
    notification := execute_notification_step }

/-- The `if/elif` dispatch inside `_execute_step` (lines 135-145), before the
surrounding `try/except`: known step types call their handler, an unknown
step type logs and returns `False` (no exception). -/
def dispatchStep (h : StepHandlers) (step_type : String)
    (config : List (String × String)) : Except String Bool :=
  if step_type = "text_extraction" then h.text_extraction config
  else if step_type = "ai_analysis" then h.ai_analysis config
  else if step_type = "categorization" then h.categorization config
  else if step_type = "notification" then h.notification config
  else .ok false

/-- `_execute_step` (lines 132-149): the dispatch wrapped in `try/except`,
any exception from a handler is caught and converted to `False`. -/
def execute_step (h : StepHandlers) (step_type : String)
    (config : List (String × String)) : Bool :=
  match dispatchStep h step_type config with
  | .ok b => b
  | .error _ => false

/-- Whether a step type is one of the four known dispatch targets. -/
def knownStepType (step_type : String) : Prop :=
  step_type = "text_extraction" ∨ step_type = "ai_analysis" ∨
  step_type = "categorization" ∨ step_type = "notification"

instance (step_type : String) : Decidable (knownStepType step_type) := by
  unfold knownStepType; infer_instance

/-- The `for step_data in workflow.steps:` loop of `execute_workflow`
(lines 104-123) together with its two exits: on the first step whose
`_execute_step` result is falsy, `failed_runs += 1; self.db.commit(); return`;
after the loop, `successful_runs += 1; self.db.commit()`.  Returns the final
row state and the event trace of the loop. -/
def runSteps (h : StepHandlers) (w : Workflow) : List Step → Workflow × List Event
  | [] =>
      let w' := { w with successful_runs := w.successful_runs + 1 }
      (w', [Event.commit w'])
  | s :: rest =>
      if execute_step h s.step_type s.config then
        ((runSteps h w rest).1,
          Event.invoke s.step_id s.step_type :: (runSteps h w rest).2)
      else
        let w' := { w with failed_runs := w.failed_runs + 1 }
        (w', [Event.invoke s.step_id s.step_type, Event.commit w'])

/-- Body of `execute_workflow` once the row is loaded (lines 99-123):
`workflow.total_runs += 1` (in memory, no commit here), then the step loop. -/
def execWF (h : StepHandlers) (w : Workflow) : Workflow × List Event :=
  runSteps h { w with total_runs := w.total_runs + 1 }
    { w with total_runs := w.total_runs + 1 }.steps

/-- `WorkflowService.execute_workflow` (lines 91-130): the row loaded by id
is passed as `db` (`None` when the id is absent, in which case the function
logs and returns with no state change and no commit). -/
def execute_workflow (h : StepHandlers) (db : Option Workflow) :
    Option Workflow × List Event :=
  match db with
  | none => (none, [])
  | some w => let p := execWF h w; (some p.1, p.2)

/-- `execute_workflow` iterated `n` times on the same (present) workflow row. -/
def execN (h : StepHandlers) : Nat → Workflow → Workflow
  | 0, w => w
  | n + 1, w => (execWF h (execN h n w)).1

/-! ### Basic lemmas about the step loop -/

theorem runSteps_total_runs (h : StepHandlers) (w : Workflow) (steps : List Step) :
    (runSteps h w steps).1.total_runs = w.total_runs := by
  induction steps with
  | nil => simp [runSteps]
  | cons s rest ih =>
      by_cases hs : execute_step h s.step_type s.config <;>
        simp [runSteps, hs, ih]

theorem runSteps_steps (h : StepHandlers) (w : Workflow) (steps : List Step) :
    (runSteps h w steps).1.steps = w.steps := by
  induction steps with
  | nil => simp [runSteps]
  | cons s rest ih =>
      by_cases hs : execute_step h s.step_type s.config <;>
        simp [runSteps, hs, ih]

/-- The loop exits either through the success commit (successful_runs + 1)
or through the failure commit (failed_runs + 1), never both. -/
theorem runSteps_outcome (h : StepHandlers) (w : Workflow) (steps : List Step) :
    ((runSteps h w steps).1.successful_runs = w.successful_runs + 1 ∧
      (runSteps h w steps).1.failed_runs = w.failed_runs) ∨
    ((runSteps h w steps).1.failed_runs = w.failed_runs + 1 ∧
      (runSteps h w steps).1.successful_runs = w.successful_runs) := by
  induction steps with
  | nil => left; simp [runSteps]
  | cons s rest ih =>
      by_cases hs : execute_step h s.step_type s.config
      · simpa [runSteps, hs] using ih
      · right; simp [runSteps, hs]

theorem execWF_total_runs (h : StepHandlers) (w : Workflow) :
    (execWF h w).1.total_runs = w.total_runs + 1 := by
  simpa [execWF] using runSteps_total_runs h _ _

theorem execWF_steps (h : StepHandlers) (w : Workflow) :
    (execWF h w).1.steps = w.steps := by
  simpa [execWF] using runSteps_steps h _ _

theorem execWF_outcome (h : StepHandlers) (w : Workflow) :
    ((execWF h w).1.successful_runs = w.successful_runs + 1 ∧
      (execWF h w).1.failed_runs = w.failed_runs) ∨
    ((execWF h w).1.failed_runs = w.failed_runs + 1 ∧
      (execWF h w).1.successful_runs = w.successful_runs) := by
  simpa [execWF] using runSteps_outcome h _ _

theorem execN_total_runs (h : StepHandlers) (n : Nat) (w : Workflow) :
    (execN h n w).total_runs = w.total_runs + n := by
  induction n with
  | zero => simp [execN]
  | succ n ih => simp [execN, execWF_total_runs, ih]; omega

theorem execN_sum_runs (h : StepHandlers) (n : Nat) (w : Workflow) :
    (execN h n w).successful_runs + (execN h n w).failed_runs =
      w.successful_runs + w.failed_runs + n := by
  induction n with
  | zero => simp [execN]
  | succ n ih =>
      rcases execWF_outcome h (execN h n w) with ⟨hs, hf⟩ | ⟨hf, hs⟩ <;>
        simp [execN, hs, hf] <;> omega

/-- C1: a call of `execute_workflow` on an absent id changes nothing and
commits nothing; on a present workflow it adds exactly 1 to `total_runs` and
exactly 1 to exactly one of `successful_runs`/`failed_runs`, leaving the
other unchanged (so no counter ever decreases); hence from zeroed counters,
after `N` attempts `total_runs = N` and `successful_runs + failed_runs = N`. -/
theorem execute_workflow_counters (h : StepHandlers) (w0 : Workflow) (n : Nat)
    (hz : w0.total_runs = 0 ∧ w0.successful_runs = 0 ∧ w0.failed_runs = 0) :
    execute_workflow h none = (none, []) ∧
    (∀ w : Workflow,
      (execWF h w).1.total_runs = w.total_runs + 1 ∧
      (((execWF h w).1.successful_runs = w.successful_runs + 1 ∧
          (execWF h w).1.failed_runs = w.failed_runs) ∨
        ((execWF h w).1.failed_runs = w.failed_runs + 1 ∧
          (execWF h w).1.successful_runs = w.successful_runs))) ∧
    (execN h n w0).total_runs = n ∧
    (execN h n w0).successful_runs + (execN h n w0).failed_runs = n := by
  obtain ⟨h1, h2, h3⟩ := hz
  refine ⟨rfl, fun w => ⟨execWF_total_runs h w, execWF_outcome h w⟩, ?_, ?_⟩
  · simp [execN_total_runs, h1]
  · simp [execN_sum_runs, h2, h3]

/-- Witness for C1 at a concrete zeroed workflow and n = 3. -/
theorem execute_workflow_counters_witness :
    (execN defaultHandlers 3
        ⟨0, 0, 0, [⟨"s1", "text_extraction", []⟩]⟩).total_runs = 3 ∧
      (execN defaultHandlers 3
          ⟨0, 0, 0, [⟨"s1", "text_extraction", []⟩]⟩).successful_runs +
        (execN defaultHandlers 3
            ⟨0, 0, 0, [⟨"s1", "text_extraction", []⟩]⟩).failed_runs = 3 :=
  ⟨(execute_workflow_counters defaultHandlers
      ⟨0, 0, 0, [⟨"s1", "text_extraction", []⟩]⟩ 3 ⟨rfl, rfl, rfl⟩).2.2.1,
   (execute_workflow_counters defaultHandlers
      ⟨0, 0, 0, [⟨"s1", "text_extraction", []⟩]⟩ 3 ⟨rfl, rfl, rfl⟩).2.2.2⟩

/-! ### Traces of the step loop -/

/-- The step invocations recorded in a trace, in order. -/
def invokes (tr : List Event) : List (String × String) :=
  tr.filterMap fun e =>
    match e with
    | Event.invoke sid sty => some (sid, sty)
    | Event.commit _ => none

theorem runSteps_fail_at (h : StepHandlers) (w : Workflow) (ps ss : List Step)
    (s : Step) (hok : ∀ p ∈ ps, execute_step h p.step_type p.config = true)
    (hfail : execute_step h s.step_type s.config = false) :
    (runSteps h w (ps ++ s :: ss)).1.failed_runs = w.failed_runs + 1 ∧
    (runSteps h w (ps ++ s :: ss)).1.successful_runs = w.successful_runs ∧
    invokes (runSteps h w (ps ++ s :: ss)).2 =
      (ps ++ [s]).map (fun t => (t.step_id, t.step_type)) := by
  induction ps with
  | nil => simp [runSteps, hfail, invokes]
  | cons p ps ih =>
      have hp : execute_step h p.step_type p.config = true :=
        hok p (List.mem_cons_self p ps)
      have ih' := ih (fun q hq => hok q (List.mem_cons_of_mem p hq))
      simp only [List.cons_append, runSteps, hp, if_true]
      refine ⟨ih'.1, ih'.2.1, ?_⟩
      simp [invokes] at ih' ⊢
      exact ih'.2.2

/-- The handler table as shipped, except that `_execute_ai_analysis_step`
returns `False` — the "ai_analysis (failing)" step of the spec scenario. -/
def failingAIHandlers : StepHandlers :=
  { defaultHandlers with ai_analysis := fun _ => .ok false }

/-- The workflow of the spec scenario: steps [ai_analysis, notification]. -/
def scenarioC2wf : Workflow :=
  ⟨0, 0, 0, [⟨"s1", "ai_analysis", []⟩, ⟨"s2", "notification", []⟩]⟩

/-- C2: `execute_workflow` walks the stored step list in order; when every
step before `s` succeeds and `s`'s handler result is falsy, the run aborts
at `s`: `failed_runs` gains 1, `successful_runs` is unchanged, and the
invoked steps are exactly the prefix up to and including `s` (no later step
handler runs).  Concretely, for steps [ai_analysis (failing), notification]
only step 1 is invoked and `failed_runs` becomes 1. -/
theorem execute_workflow_stop_on_first_failure (h : StepHandlers)
    (w : Workflow) (ps ss : List Step) (s : Step)
    (hsteps : w.steps = ps ++ s :: ss)
    (hok : ∀ p ∈ ps, execute_step h p.step_type p.config = true)
    (hfail : execute_step h s.step_type s.config = false) :
    ((execWF h w).1.failed_runs = w.failed_runs + 1 ∧
      (execWF h w).1.successful_runs = w.successful_runs ∧
      invokes (execWF h w).2 =
        (ps ++ [s]).map (fun t => (t.step_id, t.step_type))) ∧
    ((execWF failingAIHandlers scenarioC2wf).1.failed_runs = 1 ∧
      (execWF failingAIHandlers scenarioC2wf).1.successful_runs = 0 ∧
      invokes (execWF failingAIHandlers scenarioC2wf).2 =
        [("s1", "ai_analysis")]) := by
  constructor
  · have := runSteps_fail_at h { w with total_runs := w.total_runs + 1 }
      ps ss s hok hfail
    simpa [execWF, hsteps] using this
  · refine ⟨by decide, by decide, by decide⟩

/-- Witness for C2: the general part applied to the concrete scenario
workflow with the failing-AI handler table. -/
theorem execute_workflow_stop_on_first_failure_witness :
    (execWF failingAIHandlers scenarioC2wf).1.failed_runs = 0 + 1 ∧
    invokes (execWF failingAIHandlers scenarioC2wf).2 =
      [("s1", "ai_analysis")] := by
  have hmain := execute_workflow_stop_on_first_failure failingAIHandlers
    scenarioC2wf [] [⟨"s2", "notification", []⟩] ⟨"s1", "ai_analysis", []⟩
    (by decide) (fun p hp => by simp at hp) (by decide)
  exact ⟨hmain.1.1, by simpa using hmain.1.2.2⟩

/-! ### C5: when is the `total_runs` increment committed? -/

theorem runSteps_trace_ne_nil (h : StepHandlers) (w : Workflow)
    (steps : List Step) : (runSteps h w steps).2 ≠ [] := by
  cases steps with
  | nil => simp [runSteps]
  | cons s rest =>
      by_cases hs : execute_step h s.step_type s.config <;> simp [runSteps, hs]

theorem runSteps_commit_mem (h : StepHandlers) (w : Workflow)
    (steps : List Step) (c : Workflow)
    (hc : Event.commit c ∈ (runSteps h w steps).2) :
    c = (runSteps h w steps).1 := by
  induction steps with
  | nil =>
      simp [runSteps] at hc ⊢
      exact hc
  | cons s rest ih =>
      by_cases hs : execute_step h s.step_type s.config
      · simp only [runSteps, hs, if_true, List.mem_cons] at hc ⊢
        rcases hc with hc | hc
        · cases hc
        · exact ih hc
      · simp [runSteps, hs] at hc ⊢
        exact hc

theorem runSteps_getLast (h : StepHandlers) (w : Workflow) (steps : List Step) :
    (runSteps h w steps).2.getLast? =
      some (Event.commit (runSteps h w steps).1) := by
  induction steps with
  | nil => simp [runSteps]
  | cons s rest ih =>
      by_cases hs : execute_step h s.step_type s.config
      · simp only [runSteps, hs, if_true]
        obtain ⟨e, tr, htr⟩ :=
          List.exists_cons_of_ne_nil (runSteps_trace_ne_nil h w rest)
        rw [htr] at ih ⊢
        rw [List.getLast?_cons_cons]
        exact ih
      · simp [runSteps, hs]

/-- The workflow used to refute the "persists immediately" half of C5:
zeroed counters, one `text_extraction` step. -/
def c5wf : Workflow := ⟨0, 0, 0, [⟨"s1", "text_extraction", []⟩]⟩

/-- C5 (counterexample): on a workflow with a step, no `db.commit()` happens
before a step handler is invoked — the trace of `execute_workflow` contains
no commit event at an earlier position than an invoke event, refuting "a
commit of the incremented total_runs happens before the first step handler
is invoked". -/
theorem no_commit_before_first_step_invoke :
    ¬ ∃ i j : Nat, i < j ∧
        (∃ c, (execWF defaultHandlers c5wf).2.get? i = some (Event.commit c)) ∧
        (∃ sid sty, (execWF defaultHandlers c5wf).2.get? j =
          some (Event.invoke sid sty)) := by
  have htr : (execWF defaultHandlers c5wf).2 =
      [Event.invoke "s1" "text_extraction",
        Event.commit ⟨1, 0, 1, [⟨"s1", "text_extraction", []⟩]⟩] := by decide
  rw [htr]
  rintro ⟨i, j, hij, ⟨c, hc⟩, sid, sty, hj⟩
  match j, hj with
  | 0, hj => omega
  | 1, hj => simp at hj
  | n + 2, hj => simp at hj

/-- C5 (amended): `execute_workflow` increments `total_runs` in memory at
entry, before any step runs — every committed snapshot already carries the
incremented value, and the final row has it — but the increment is not
persisted before the first step handler: when the workflow has at least one
step, the first trace event is that step's invocation, and the only commit
is the single one at the end of the run. -/
theorem execute_workflow_total_runs_timing (h : StepHandlers) (w : Workflow)
    (s : Step) (rest : List Step) (hsteps : w.steps = s :: rest) :
    (execWF h w).1.total_runs = w.total_runs + 1 ∧
    (∀ c, Event.commit c ∈ (execWF h w).2 → c.total_runs = w.total_runs + 1) ∧
    (execWF h w).2.head? = some (Event.invoke s.step_id s.step_type) ∧
    (execWF h w).2.getLast? = some (Event.commit (execWF h w).1) := by
  refine ⟨execWF_total_runs h w, ?_, ?_, ?_⟩
  · intro c hc
    have := runSteps_commit_mem h { w with total_runs := w.total_runs + 1 }
      { w with total_runs := w.total_runs + 1 }.steps c (by simpa [execWF] using hc)
    rw [show c = (execWF h w).1 from by simpa [execWF] using this]
    exact execWF_total_runs h w
  · by_cases hs : execute_step h s.step_type s.config <;>
      simp [execWF, hsteps, runSteps, hs]
  · simpa [execWF] using
      runSteps_getLast h { w with total_runs := w.total_runs + 1 }
        { w with total_runs := w.total_runs + 1 }.steps

/-- Witness for C5 (amended) at the concrete one-step workflow. -/
theorem execute_workflow_total_runs_timing_witness :
    (execWF defaultHandlers c5wf).1.total_runs = 0 + 1 ∧
    (execWF defaultHandlers c5wf).2.head? =
      some (Event.invoke "s1" "text_extraction") :=
  ⟨(execute_workflow_total_runs_timing defaultHandlers c5wf
      ⟨"s1", "text_extraction", []⟩ [] rfl).1,
   (execute_workflow_total_runs_timing defaultHandlers c5wf
      ⟨"s1", "text_extraction", []⟩ [] rfl).2.2.1⟩

/-- The workflow of the claimed success scenario: steps
[text_extraction, notification]. -/
def scenarioC6wf : Workflow :=
  ⟨0, 0, 0, [⟨"s1", "text_extraction", []⟩, ⟨"s2", "notification", []⟩]⟩

/-- C6 (code_bug): the claim expects both handlers of
[text_extraction, notification] to succeed (total_runs = 1,
successful_runs = 1, failed_runs = 0), but workflow_service.py never imports
asyncio, so `_execute_text_extraction_step` raises NameError at
`await asyncio.sleep(1)`; `_execute_step` converts that to False and the run
aborts at step 1: total_runs = 1, successful_runs = 0, failed_runs = 1, and
the notification handler is never invoked. -/
theorem workflow_two_steps_namerror_scenario :
    dispatchStep defaultHandlers "text_extraction" [] =
      .error "NameError: asyncio is not defined" ∧
    execute_step defaultHandlers "text_extraction" [] = false ∧
    (execWF defaultHandlers scenarioC6wf).1.total_runs = 1 ∧
    (execWF defaultHandlers scenarioC6wf).1.successful_runs = 0 ∧
    (execWF defaultHandlers scenarioC6wf).1.failed_runs = 1 ∧
    invokes (execWF defaultHandlers scenarioC6wf).2 =
      [("s1", "text_extraction")] := by
  refine ⟨rfl, by decide, by decide, by decide, by decide, by decide⟩

/-! ### C7: error conversion and unknown step types -/

/-- Under the shipped handlers every step fails: a known step type raises
NameError (converted to False by the try/except), an unknown one returns
False from the else branch. -/
theorem default_execute_step_false (ty : String)
    (cfg : List (String × String)) :
    execute_step defaultHandlers ty cfg = false := by
  unfold execute_step dispatchStep defaultHandlers
  unfold execute_text_extraction_step execute_ai_analysis_step
    execute_categorization_step execute_notification_step
  by_cases h1 : ty = "text_extraction" <;>
    by_cases h2 : ty = "ai_analysis" <;>
      by_cases h3 : ty = "categorization" <;>
        by_cases h4 : ty = "notification" <;>
          simp [h1, h2, h3, h4]

/-- Under the shipped handlers, any non-empty step list makes the loop take
the failure exit at its first step. -/
theorem runSteps_default_cons_fails (w : Workflow) (s : Step)
    (rest : List Step) :
    (runSteps defaultHandlers w (s :: rest)).1.failed_runs = w.failed_runs + 1 ∧
    (runSteps defaultHandlers w (s :: rest)).1.successful_runs =
      w.successful_runs := by
  simp [runSteps, default_execute_step_false]

/-- C7: `_execute_step` converts a handler exception into the result `False`
(it never propagates); a step type outside the four known ones yields `False`
immediately; and under the shipped handlers, any workflow containing an
unknown step type anywhere in its step list ends with `failed_runs`
incremented and `successful_runs` unchanged. -/
theorem step_errors_converted_to_false :
    (∀ (h : StepHandlers) (ty : String) (cfg : List (String × String))
      (e : String), dispatchStep h ty cfg = .error e →
        execute_step h ty cfg = false) ∧
    (∀ (h : StepHandlers) (ty : String) (cfg : List (String × String)),
      ¬ knownStepType ty → execute_step h ty cfg = false) ∧
    (∀ w : Workflow, (∃ s ∈ w.steps, ¬ knownStepType s.step_type) →
      (execWF defaultHandlers w).1.failed_runs = w.failed_runs + 1 ∧
      (execWF defaultHandlers w).1.successful_runs = w.successful_runs) := by
  refine ⟨?_, ?_, ?_⟩
  · intro h ty cfg e he
    simp [execute_step, he]
  · intro h ty cfg hty
    unfold knownStepType at hty
    push_neg at hty
    obtain ⟨h1, h2, h3, h4⟩ := hty
    simp [execute_step, dispatchStep, h1, h2, h3, h4]
  · intro w hex
    obtain ⟨s, hmem, _⟩ := hex
    cases hsteps : w.steps with
    | nil => rw [hsteps] at hmem; simp at hmem
    | cons s0 rest =>
        have hfail := runSteps_default_cons_fails
          { w with total_runs := w.total_runs + 1 } s0 rest
        exact ⟨by simpa [execWF, hsteps] using hfail.1,
          by simpa [execWF, hsteps] using hfail.2⟩

/-- Witness for C7: a raising handler is converted to `False`; the unknown
step type "mystery" yields `False`; and a workflow with "mystery" in second
position fails. -/
theorem step_errors_converted_to_false_witness :
    execute_step
        { defaultHandlers with
            text_extraction := fun _ => .error "boom" }
        "text_extraction" [] = false ∧
    execute_step defaultHandlers "mystery" [] = false ∧
    (execWF defaultHandlers
        ⟨0, 0, 0, [⟨"s1", "text_extraction", []⟩, ⟨"s2", "mystery", []⟩]⟩).1.failed_runs
      = 0 + 1 :=
  ⟨step_errors_converted_to_false.1
      { defaultHandlers with text_extraction := fun _ => .error "boom" }
      "text_extraction" [] "boom" rfl,
   step_errors_converted_to_false.2.1 defaultHandlers "mystery" [] (by decide),
   (step_errors_converted_to_false.2.2
      ⟨0, 0, 0, [⟨"s1", "text_extraction", []⟩, ⟨"s2", "mystery", []⟩]⟩
      ⟨⟨"s2", "mystery", []⟩, by simp, by decide⟩).1⟩

/-! ## Processing jobs (src/app/services/processing_service.py)

`JobStatus` and the `ProcessingJob` row as far as the service touches it.
Timestamps and floats are rationals; each `datetime.utcnow()` call site
receives its value as a parameter. -/

/-- `JobStatus` (pending / running / completed / failed). -/
inductive JobStatus where
  | pending
  | running
  | completed
  | failed
deriving DecidableEq, Repr

/-- Python `str(...)` of an optional integer column. -/
def pyStr (o : Option Nat) : String :=
  match o with
  | some n => toString n
  | none => "None"

/-- The `ProcessingJob` row (models/document.py lines 125-152), restricted to
the fields `ProcessingService` reads or writes.  `output_data` is the JSON
payload, modelled as a key/value list with stringified values. -/
structure Job where
  job_type : String
  status : JobStatus
  progress : ℚ
  error_message : Option String
  output_data : Option (List (String × String))
  document_id : Option Nat
  workflow_id : Option Nat
  started_at : Option ℚ
  completed_at : Option ℚ
  duration_seconds : Option ℚ
  created_at : ℚ
deriving DecidableEq, Repr

/-- `cancel_job` (processing_service.py lines 74-88): absent id returns
False; a pending/running job is flipped to failed with the literal message
"Job cancelled by user" and `completed_at = now`, returning True; a terminal
job is left unchanged and False is returned. -/
def cancel_job (db : Option Job) (t_now : ℚ) : Bool × Option Job :=
  match db with
  | none => (false, none)
  | some job =>
      if job.status = JobStatus.pending ∨ job.status = JobStatus.running then
        (true, some { job with
          status := JobStatus.failed
          error_message := some "Job cancelled by user"
          completed_at := some t_now })
      else
        (false, some job)

/-- The `except` block of `_process_job_async` (lines 170-179): mark the row
failed, record the message and `completed_at`, and compute
`duration_seconds` only when `started_at` is set (the `if job.started_at:`
guard) — a missing `started_at` leaves the duration untouched instead of
raising. -/
def finalize_failed (job : Job) (msg : String) (t_now : ℚ) : Job :=
  let j := { job with
    status := JobStatus.failed
    error_message := some msg
    completed_at := some t_now }
  match j.started_at with
  | some s => { j with duration_seconds := some (t_now - s) }
  | none => j

/-- One per-type progress loop: each iteration writes `job.progress` and
commits (`self.db.commit()` inside the `for`); returns the row after the
loop and the list of committed snapshots. -/
def progressLoop (job : Job) : List ℚ → Job × List Job
  | [] => (job, [])
  | p :: rest =>
      ((progressLoop { job with progress := p } rest).1,
        { job with progress := p } :: (progressLoop { job with progress := p } rest).2)

/-- `_process_text_extraction` (lines 182-197): 5 iterations writing
`progress = (i+1)*20`, then the mock `output_data` (not committed by the
handler itself). -/
def process_text_extraction (job : Job) : Job × List Job :=
  let p := progressLoop job ((List.range 5).map (fun i => ((i : ℚ) + 1) * 20))
  ({ p.1 with output_data := some [("extracted_text", "Extracted text from document " ++ pyStr job.document_id),
       ("word_count", "150"), ("language", "en")] }, p.2)

/-- `_process_ai_analysis` (lines 199-215): 10 iterations writing
`progress = (i+1)*10`, then the mock `output_data`. -/
def process_ai_analysis (job : Job) : Job × List Job :=
  let p := progressLoop job ((List.range 10).map (fun i => ((i : ℚ) + 1) * 10))
  ({ p.1 with output_data := some [("summary", "AI-generated summary for document " ++ pyStr job.document_id),
       ("category", "Business Document"), ("confidence", "0.85"),
       ("key_points", "Point 1, Point 2, Point 3")] }, p.2)

/-- `_process_categorization` (lines 217-232): 3 iterations writing
`progress = (i+1)*33.33`, then the mock `output_data`. -/
def process_categorization (job : Job) : Job × List Job :=
  let p := progressLoop job ((List.range 3).map (fun i => ((i : ℚ) + 1) * (3333 / 100)))
  ({ p.1 with output_data := some [("category", "Technical Document"), ("confidence", "0.92"),
       ("subcategories", "API Documentation, Technical Specification")] }, p.2)

/-- `_process_workflow` (lines 234-250): 8 iterations writing
`progress = (i+1)*12.5`, then the mock `output_data`. -/
def process_workflow (job : Job) : Job × List Job :=
  let p := progressLoop job ((List.range 8).map (fun i => ((i : ℚ) + 1) * (125 / 10)))
  ({ p.1 with output_data := some [("workflow_id", pyStr job.workflow_id), ("steps_completed", "5"),
       ("total_steps", "5"), ("execution_time", "6.4")] }, p.2)

/-- The completion epilogue of `_process_job_async` (lines 161-166): set
status/progress/completed_at and `duration_seconds = completed_at -
started_at`, commit.  In the source a missing `started_at` here would raise
a TypeError *after* the completed fields were already assigned in memory,
landing in the `except` block — that (unreachable) path is modelled
faithfully via `finalize_failed`. -/
def completeJob (j0 : Job) (p : Job × List Job) (t_end : ℚ) : Option Job × List Job :=
  match p.1.started_at with
  | some s =>
      let jf := { p.1 with
        status := JobStatus.completed
        progress := 100
        completed_at := some t_end
        duration_seconds := some (t_end - s) }
      (some jf, j0 :: p.2 ++ [jf])
  | none =>
      let jmid := { p.1 with
        status := JobStatus.completed
        progress := 100
        completed_at := some t_end }
      let jf := finalize_failed jmid "unsupported operand type for subtraction" t_end
      (some jf, j0 :: p.2 ++ [jf])

/-- `ProcessingService._process_job_async` (lines 133-180).  `db` is the row
found by id (`None` when absent: log and return, nothing committed).
Otherwise: set running / `started_at = t_start` / progress 0 and commit;
dispatch on `job_type` (an unknown type raises ValueError, caught by the
`except` block which re-reads the same session object and finalizes it as
failed); on success run the completion epilogue.  Returns the final row and
the list of committed snapshots in commit order. -/
def process_job_async (db : Option Job) (t_start t_end : ℚ) :
    Option Job × List Job :=
  match db with
  | none => (none, [])
  | some job =>
      let j0 : Job := { job with
        status := JobStatus.running
        started_at := some t_start
        progress := 0 }
      if job.job_type = "text_extraction" then
        completeJob j0 (process_text_extraction j0) t_end
      else if job.job_type = "ai_analysis" then
        completeJob j0 (process_ai_analysis j0) t_end
      else if job.job_type = "categorization" then
        completeJob j0 (process_categorization j0) t_end
      else if job.job_type = "workflow" then
        completeJob j0 (process_workflow j0) t_end
      else
        let jf := finalize_failed j0 ("Unknown job type: " ++ job.job_type) t_end
        (some jf, [j0, jf])

/-! ### Lemmas about the per-type progress loops -/

theorem progressLoop_map_progress (j : Job) (incs : List ℚ) :
    ((progressLoop j incs).2).map Job.progress = incs := by
  induction incs generalizing j with
  | nil => simp [progressLoop]
  | cons p rest ih => simp [progressLoop, ih]

theorem progressLoop_started_at (j : Job) (incs : List ℚ) :
    (progressLoop j incs).1.started_at = j.started_at := by
  induction incs generalizing j with
  | nil => simp [progressLoop]
  | cons p rest ih => simp [progressLoop, ih]

theorem process_text_extraction_trace (j : Job) :
    (process_text_extraction j).2.map Job.progress =
      [20, 40, 60, 80, 100] ∧
    (process_text_extraction j).1.started_at = j.started_at := by
  refine ⟨?_, by simp [process_text_extraction, progressLoop_started_at]⟩
  rw [show (process_text_extraction j).2 =
      (progressLoop j ((List.range 5).map (fun i => ((i : ℚ) + 1) * 20))).2
    from rfl]
  rw [progressLoop_map_progress]
  norm_num [List.range_succ]

theorem process_ai_analysis_trace (j : Job) :
    (process_ai_analysis j).2.map Job.progress =
      [10, 20, 30, 40, 50, 60, 70, 80, 90, 100] ∧
    (process_ai_analysis j).1.started_at = j.started_at := by
  refine ⟨?_, by simp [process_ai_analysis, progressLoop_started_at]⟩
  rw [show (process_ai_analysis j).2 =
      (progressLoop j ((List.range 10).map (fun i => ((i : ℚ) + 1) * 10))).2
    from rfl]
  rw [progressLoop_map_progress]
  norm_num [List.range_succ]

theorem process_categorization_trace (j : Job) :
    (process_categorization j).2.map Job.progress =
      [3333 / 100, 3333 / 50, 9999 / 100] ∧
    (process_categorization j).1.started_at = j.started_at := by
  refine ⟨?_, by simp [process_categorization, progressLoop_started_at]⟩
  rw [show (process_categorization j).2 =
      (progressLoop j ((List.range 3).map (fun i => ((i : ℚ) + 1) * (3333 / 100)))).2
    from rfl]
  rw [progressLoop_map_progress]
  norm_num [List.range_succ]

theorem process_workflow_trace (j : Job) :
    (process_workflow j).2.map Job.progress =
      [25 / 2, 25, 75 / 2, 50, 125 / 2, 75, 175 / 2, 100] ∧
    (process_workflow j).1.started_at = j.started_at := by
  refine ⟨?_, by simp [process_workflow, progressLoop_started_at]⟩
  rw [show (process_workflow j).2 =
      (progressLoop j ((List.range 8).map (fun i => ((i : ℚ) + 1) * (125 / 10)))).2
    from rfl]
  rw [progressLoop_map_progress]
  norm_num [List.range_succ]

theorem completeJob_trace (j0 : Job) (p : Job × List Job) (t2 s : ℚ)
    (hs : p.1.started_at = some s) :
    ((completeJob j0 p t2).2).map Job.progress =
      j0.progress :: p.2.map Job.progress ++ [100] ∧
    ∃ last, ((completeJob j0 p t2).2).getLast? = some last ∧
      (completeJob j0 p t2).1 = some last ∧
      last.progress = 100 ∧ last.status = JobStatus.completed := by
  refine ⟨by simp [completeJob, hs], ?_⟩
  simp only [completeJob, hs]
  refine ⟨_, ?_, rfl, rfl, rfl⟩
  exact List.getLast?_concat (j0 :: p.2)

theorem known_branch_props (j0 : Job) (p : Job × List Job) (t2 s : ℚ)
    (hs : p.1.started_at = some s) (incs : List ℚ)
    (hmap : p.2.map Job.progress = incs)
    (hmono : List.Chain' (· ≤ ·) (j0.progress :: incs ++ [100]))
    (hbound : ∀ q ∈ j0.progress :: incs ++ [100], 0 ≤ q ∧ q ≤ 100) :
    List.Chain' (· ≤ ·) (((completeJob j0 p t2).2).map Job.progress) ∧
    (∀ q ∈ ((completeJob j0 p t2).2).map Job.progress, 0 ≤ q ∧ q ≤ 100) ∧
    (∃ last, ((completeJob j0 p t2).2).getLast? = some last ∧
      (completeJob j0 p t2).1 = some last ∧
      (last.progress = 100 ↔ last.status = JobStatus.completed)) := by
  obtain ⟨hm, last, hL1, hL2, hL3, hL4⟩ := completeJob_trace j0 p t2 s hs
  rw [hm, hmap]
  exact ⟨hmono, hbound, last, hL1, hL2, by simp [hL3, hL4]⟩

/-- C3: over the persisted states committed by `_process_job_async` for any
job (any `job_type`), the `progress` field is non-decreasing from one commit
to the next, always within [0, 100], and the final persisted state — which
is also the returned row — has `progress = 100` exactly when its status is
`completed`. -/
theorem job_progress_monotone_bounded_terminal (job : Job) (t1 t2 : ℚ) :
    List.Chain' (· ≤ ·) (((process_job_async (some job) t1 t2).2).map Job.progress) ∧
    (∀ q ∈ ((process_job_async (some job) t1 t2).2).map Job.progress,
      0 ≤ q ∧ q ≤ 100) ∧
    (∃ last, ((process_job_async (some job) t1 t2).2).getLast? = some last ∧
      (process_job_async (some job) t1 t2).1 = some last ∧
      (last.progress = 100 ↔ last.status = JobStatus.completed)) := by
  by_cases h1 : job.job_type = "text_extraction"
  · have hred : process_job_async (some job) t1 t2 =
        completeJob
          { job with status := JobStatus.running, started_at := some t1, progress := 0 }
          (process_text_extraction
            { job with status := JobStatus.running, started_at := some t1, progress := 0 })
          t2 := by
      simp [process_job_async, h1]
    rw [hred]
    exact known_branch_props _ _ t2 t1
      (by simp [process_text_extraction, progressLoop_started_at]) _
      (process_text_extraction_trace _).1
      (by norm_num [List.chain'_cons]) (by norm_num)
  by_cases h2 : job.job_type = "ai_analysis"
  · have hred : process_job_async (some job) t1 t2 =
        completeJob
          { job with status := JobStatus.running, started_at := some t1, progress := 0 }
          (process_ai_analysis
            { job with status := JobStatus.running, started_at := some t1, progress := 0 })
          t2 := by
      simp [process_job_async, h1, h2]
    rw [hred]
    exact known_branch_props _ _ t2 t1
      (by simp [process_ai_analysis, progressLoop_started_at]) _
      (process_ai_analysis_trace _).1
      (by norm_num [List.chain'_cons]) (by norm_num)
  by_cases h3 : job.job_type = "categorization"
  · have hred : process_job_async (some job) t1 t2 =
        completeJob
          { job with status := JobStatus.running, started_at := some t1, progress := 0 }
          (process_categorization
            { job with status := JobStatus.running, started_at := some t1, progress := 0 })
          t2 := by
      simp [process_job_async, h1, h2, h3]
    rw [hred]
    exact known_branch_props _ _ t2 t1
      (by simp [process_categorization, progressLoop_started_at]) _
      (process_categorization_trace _).1
      (by norm_num [List.chain'_cons]) (by norm_num)
  by_cases h4 : job.job_type = "workflow"
  · have hred : process_job_async (some job) t1 t2 =
        completeJob
          { job with status := JobStatus.running, started_at := some t1, progress := 0 }
          (process_workflow
            { job with status := JobStatus.running, started_at := some t1, progress := 0 })
          t2 := by
      simp [process_job_async, h1, h2, h3, h4]
    rw [hred]
    exact known_branch_props _ _ t2 t1
      (by simp [process_workflow, progressLoop_started_at]) _
      (process_workflow_trace _).1
      (by norm_num [List.chain'_cons]) (by norm_num)
  · have hred : process_job_async (some job) t1 t2 =
        (some (finalize_failed
            { job with status := JobStatus.running, started_at := some t1, progress := 0 }
            ("Unknown job type: " ++ job.job_type) t2),
          [{ job with status := JobStatus.running, started_at := some t1, progress := 0 },
            finalize_failed
              { job with status := JobStatus.running, started_at := some t1, progress := 0 }
              ("Unknown job type: " ++ job.job_type) t2]) := by
      simp [process_job_async, h1, h2, h3, h4]
    rw [hred]
    refine ⟨?_, ?_, ?_⟩
    · simp [finalize_failed, List.chain'_cons]
    · simp [finalize_failed]
    · refine ⟨finalize_failed
          { job with status := JobStatus.running, started_at := some t1, progress := 0 }
          ("Unknown job type: " ++ job.job_type) t2, by simp, by simp, ?_⟩
      norm_num [finalize_failed]
      decide

/-! ### C4: cancellation -/

/-- A fresh pending job, as created by `create_job`. -/
def pendingJob : Job :=
  ⟨"text_extraction", JobStatus.pending, 0, none, none, some 7, none,
    none, none, none, 0⟩

/-- A completed job (terminal state). -/
def completedJob : Job :=
  ⟨"text_extraction", JobStatus.completed, 100, none, none, some 7, none,
    some 1, some 6, some 5, 0⟩

/-- C4 (counterexample): cancelling a pending job does flip it to failed and
return True, but the recorded `error_message` is the literal
"Job cancelled by user", not "cancelled" as the claim states. -/
theorem cancel_message_counterexample :
    (cancel_job (some pendingJob) 5).1 = true ∧
    ((cancel_job (some pendingJob) 5).2.map Job.error_message) =
      some (some "Job cancelled by user") ∧
    ((cancel_job (some pendingJob) 5).2.map Job.error_message) ≠
      some (some "cancelled") := by
  refine ⟨rfl, rfl, by decide⟩

/-- C4 (amended): `cancel_job` returns False and leaves the record unchanged
when the job is absent or terminal (completed/failed); on a pending or
running job it sets status=failed, `error_message` = "Job cancelled by
user", `completed_at` = now, and returns True. -/
theorem cancel_job_behaviour (db : Option Job) (t_now : ℚ) :
    (db = none → cancel_job db t_now = (false, none)) ∧
    (∀ job, db = some job →
      (job.status = JobStatus.completed ∨ job.status = JobStatus.failed) →
      cancel_job db t_now = (false, some job)) ∧
    (∀ job, db = some job →
      (job.status = JobStatus.pending ∨ job.status = JobStatus.running) →
      cancel_job db t_now = (true, some { job with
        status := JobStatus.failed
        error_message := some "Job cancelled by user"
        completed_at := some t_now })) := by
  refine ⟨?_, ?_, ?_⟩
  · rintro rfl; rfl
  · rintro job rfl hterm
    have hnot : ¬ (job.status = JobStatus.pending ∨ job.status = JobStatus.running) := by
      rcases hterm with h | h <;> simp [h]
    simp only [cancel_job]
    rw [if_neg hnot]
  · rintro job rfl hact
    simp only [cancel_job]
    rw [if_pos hact]

/-- Witness for C4 (amended): absent id, a completed job and a pending job. -/
theorem cancel_job_behaviour_witness :
    cancel_job none 5 = (false, none) ∧
    cancel_job (some completedJob) 5 = (false, some completedJob) ∧
    (cancel_job (some pendingJob) 5).1 = true := by
  refine ⟨(cancel_job_behaviour none 5).1 rfl,
    (cancel_job_behaviour (some completedJob) 5).2.1 completedJob rfl
      (Or.inl rfl), ?_⟩
  rw [(cancel_job_behaviour (some pendingJob) 5).2.2 pendingJob rfl (Or.inl rfl)]

/-! ### C8: duration bookkeeping -/

theorem completeJob_fst_fields (j0 : Job) (p : Job × List Job) (t2 s : ℚ)
    (hs : p.1.started_at = some s) :
    ∃ jf, (completeJob j0 p t2).1 = some jf ∧
      jf.completed_at = some t2 ∧ jf.started_at = some s ∧
      jf.duration_seconds = some (t2 - s) := by
  simp [completeJob, hs]

/-- Whatever the `job_type`, the row returned by `_process_job_async` on a
present job carries `started_at = t_start`, `completed_at = t_end` and
`duration_seconds = t_end - t_start`. -/
theorem process_job_async_fst (job : Job) (t1 t2 : ℚ) :
    ∃ res, (process_job_async (some job) t1 t2).1 = some res ∧
      res.completed_at = some t2 ∧ res.started_at = some t1 ∧
      res.duration_seconds = some (t2 - t1) := by
  by_cases h1 : job.job_type = "text_extraction"
  · simp only [process_job_async, h1, if_true]
    exact completeJob_fst_fields _ _ t2 t1
      (by simp [process_text_extraction, progressLoop_started_at])
  by_cases h2 : job.job_type = "ai_analysis"
  · have hred : process_job_async (some job) t1 t2 =
        completeJob
          { job with status := JobStatus.running, started_at := some t1, progress := 0 }
          (process_ai_analysis
            { job with status := JobStatus.running, started_at := some t1, progress := 0 })
          t2 := by
      simp [process_job_async, h1, h2]
    rw [hred]
    exact completeJob_fst_fields _ _ t2 t1
      ((process_ai_analysis_trace
        { job with status := JobStatus.running, started_at := some t1, progress := 0 }).2.trans rfl)
  by_cases h3 : job.job_type = "categorization"
  · have hred : process_job_async (some job) t1 t2 =
        completeJob
          { job with status := JobStatus.running, started_at := some t1, progress := 0 }
          (process_categorization
            { job with status := JobStatus.running, started_at := some t1, progress := 0 })
          t2 := by
      simp [process_job_async, h1, h2, h3]
    rw [hred]
    exact completeJob_fst_fields _ _ t2 t1
      ((process_categorization_trace
        { job with status := JobStatus.running, started_at := some t1, progress := 0 }).2.trans rfl)
  by_cases h4 : job.job_type = "workflow"
  · have hred : process_job_async (some job) t1 t2 =
        completeJob
          { job with status := JobStatus.running, started_at := some t1, progress := 0 }
          (process_workflow
            { job with status := JobStatus.running, started_at := some t1, progress := 0 })
          t2 := by
      simp [process_job_async, h1, h2, h3, h4]
    rw [hred]
    exact completeJob_fst_fields _ _ t2 t1
      ((process_workflow_trace
        { job with status := JobStatus.running, started_at := some t1, progress := 0 }).2.trans rfl)
  · have hred : process_job_async (some job) t1 t2 =
        (some (finalize_failed
            { job with status := JobStatus.running, started_at := some t1, progress := 0 }
            ("Unknown job type: " ++ job.job_type) t2),
          [{ job with status := JobStatus.running, started_at := some t1, progress := 0 },
            finalize_failed
              { job with status := JobStatus.running, started_at := some t1, progress := 0 }
              ("Unknown job type: " ++ job.job_type) t2]) := by
      simp [process_job_async, h1, h2, h3, h4]
    rw [hred]
    simp [finalize_failed]

/-- C8: on the failure path `duration_seconds` is computed only under the
`if job.started_at:` guard — when `started_at` is absent nothing is raised
and the duration is left as it was (unset for a fresh job); when both
timestamps exist the recorded duration is exactly `completed_at -
started_at`; and any terminal row returned by `_process_job_async` with a
duration set has `duration = completed_at - started_at`. -/
theorem duration_matches_timestamps :
    (∀ (job : Job) (msg : String) (t : ℚ),
      (finalize_failed job msg t).completed_at = some t ∧
      (finalize_failed job msg t).started_at = job.started_at ∧
      (job.started_at = none →
        (finalize_failed job msg t).duration_seconds = job.duration_seconds) ∧
      (∀ s, job.started_at = some s →
        (finalize_failed job msg t).duration_seconds = some (t - s))) ∧
    (∀ (job : Job) (t1 t2 : ℚ) (res : Job),
      (process_job_async (some job) t1 t2).1 = some res →
      ∀ d, res.duration_seconds = some d →
        ∃ c s, res.completed_at = some c ∧ res.started_at = some s ∧
          d = c - s) := by
  constructor
  · intro job msg t
    cases hst : job.started_at with
    | none => simp [finalize_failed, hst]
    | some s => simp [finalize_failed, hst]
  · intro job t1 t2 res hres d hd
    obtain ⟨r, hr, hc, hs', hdur⟩ := process_job_async_fst job t1 t2
    rw [hr] at hres
    obtain rfl : r = res := Option.some.inj hres
    refine ⟨t2, t1, hc, hs', ?_⟩
    exact Option.some.inj (hd.symm.trans hdur)

/-- A pending job whose `started_at` has already been stamped. -/
def stampedJob : Job := { pendingJob with started_at := some 2 }

/-- Witness for C8: the failure epilogue on a job with no `started_at`
leaves the duration unset, and on a job started at t=2 failing at t=9 it
records `duration = 9 - 2`. -/
theorem duration_matches_timestamps_witness :
    (finalize_failed pendingJob "boom" 5).duration_seconds = none ∧
    (finalize_failed stampedJob "boom" 9).duration_seconds = some (9 - 2) :=
  ⟨(duration_matches_timestamps.1 pendingJob "boom" 5).2.2.1 rfl,
   (duration_matches_timestamps.1 stampedJob "boom" 9).2.2.2 2 rfl⟩

/-! ### C10: get_system_status -/

/-- Python `round(x, 2)`, modelled as rounding to the nearest multiple of
1/100 (rationals in place of floats). -/
def round2 (q : ℚ) : ℚ := (round (q * 100) : ℤ) / 100

/-- The dict returned by `get_system_status` (processing_service.py
lines 121-131). -/
structure SystemStatus where
  total_jobs : Nat
  pending_jobs : Nat
  running_jobs : Nat
  completed_jobs : Nat
  failed_jobs : Nat
  success_rate : ℚ
  average_duration_seconds : ℚ
  recent_jobs_24h : Nat
  system_health : String
deriving DecidableEq, Repr

/-- `ProcessingService.get_system_status` (lines 90-131) over the job table
`jobs`; `recent_cutoff` stands for `utcnow() - 24h`.  Counts per status,
`success_rate = completed/total*100` (0 when no jobs) rounded to 2 decimals,
average duration over completed jobs that have one, and
`system_health = "healthy" if failed_jobs < total_jobs * 0.1 else "degraded"`. -/
def get_system_status (jobs : List Job) (recent_cutoff : ℚ) : SystemStatus :=
  let total_jobs := jobs.length
  let pending_jobs :=
    (jobs.filter (fun j => decide (j.status = JobStatus.pending))).length
  let running_jobs :=
    (jobs.filter (fun j => decide (j.status = JobStatus.running))).length
  let completed_jobs :=
    (jobs.filter (fun j => decide (j.status = JobStatus.completed))).length
  let failed_jobs :=
    (jobs.filter (fun j => decide (j.status = JobStatus.failed))).length
  let success_rate : ℚ :=
    if total_jobs > 0 then (completed_jobs : ℚ) / (total_jobs : ℚ) * 100 else 0
  let completed_with_duration := jobs.filter
    (fun j => decide (j.status = JobStatus.completed) &&
      decide (j.duration_seconds ≠ none))
  let avg_duration : ℚ :=
    if completed_with_duration.length > 0 then
      ((completed_with_duration.map (fun j => j.duration_seconds.getD 0)).sum) /
        (completed_with_duration.length : ℚ)
    else 0
  let recent_jobs :=
    (jobs.filter (fun j => decide (recent_cutoff ≤ j.created_at))).length
  { total_jobs := total_jobs
    pending_jobs := pending_jobs
    running_jobs := running_jobs
    completed_jobs := completed_jobs
    failed_jobs := failed_jobs
    success_rate := round2 success_rate
    average_duration_seconds := round2 avg_duration
    recent_jobs_24h := recent_jobs
    system_health :=
      if (failed_jobs : ℚ) < (total_jobs : ℚ) * (1 / 10) then "healthy"
      else "degraded" }

theorem round2_abs_sub (q : ℚ) : |round2 q - q| ≤ 1 / 200 := by
  have h := abs_sub_round (q * 100)
  have heq : round2 q - q = -((q * 100 - (round (q * 100) : ℤ)) / 100) := by
    rw [round2]; ring
  rw [heq, abs_neg, abs_div]
  have h100 : |(100 : ℚ)| = 100 := by norm_num
  rw [h100]
  rw [show (1 : ℚ) / 200 = (1 / 2) / 100 by norm_num]
  gcongr

theorem length_filter_status_partition (jobs : List Job) :
    (jobs.filter (fun j => decide (j.status = JobStatus.pending))).length +
    (jobs.filter (fun j => decide (j.status = JobStatus.running))).length +
    (jobs.filter (fun j => decide (j.status = JobStatus.completed))).length +
    (jobs.filter (fun j => decide (j.status = JobStatus.failed))).length =
    jobs.length := by
  induction jobs with
  | nil => simp
  | cons j rest ih =>
      cases hs : j.status <;> simp [List.filter_cons, hs] <;> omega

/-- C10 (counterexample): with three jobs of which one is completed, the
reported `success_rate` is 33.33 (the 2-decimal rounding of 100/3), which is
not equal to `completed_jobs / total_jobs * 100 = 100/3`. -/
theorem success_rate_rounded_counterexample :
    (get_system_status [completedJob, pendingJob, pendingJob] 0).success_rate =
      3333 / 100 ∧
    ((get_system_status [completedJob, pendingJob, pendingJob] 0).success_rate ≠
      ((get_system_status [completedJob, pendingJob, pendingJob] 0).completed_jobs : ℚ) /
        ((get_system_status [completedJob, pendingJob, pendingJob] 0).total_jobs : ℚ) * 100) := by
  have hrate : (get_system_status [completedJob, pendingJob, pendingJob] 0).success_rate =
      round2 ((1 : ℚ) / 3 * 100) := by
    simp [get_system_status, completedJob, pendingJob]
  have hfloor : ⌊(20003 : ℚ) / 6⌋ = (3333 : ℤ) := by
    rw [Int.floor_eq_iff]
    constructor <;> norm_num
  have hr2 : round2 ((1 : ℚ) / 3 * 100) = 3333 / 100 := by
    rw [round2, round_eq,
      show ((1 : ℚ) / 3 * 100) * 100 + 1 / 2 = 20003 / 6 by norm_num, hfloor]
    norm_num
  have hcomp : (get_system_status [completedJob, pendingJob, pendingJob] 0).completed_jobs
      = 1 := by
    simp [get_system_status, completedJob, pendingJob]
  have htot : (get_system_status [completedJob, pendingJob, pendingJob] 0).total_jobs
      = 3 := by
    simp [get_system_status]
  refine ⟨hrate.trans hr2, ?_⟩
  rw [hrate, hr2, hcomp, htot]
  norm_num

/-- C10 (amended): `get_system_status` reports per-status counts that
partition the job table; a `success_rate` equal to
`completed_jobs / total_jobs * 100` rounded to two decimals (so within 1/200
of the exact rate) and 0 for an empty table; and `system_health` is
"healthy" exactly when `failed_jobs < total_jobs * 0.1` (in particular the
empty table is "degraded", since 0 < 0 fails). -/
theorem get_system_status_spec (jobs : List Job) (cutoff : ℚ) :
    (get_system_status jobs cutoff).total_jobs = jobs.length ∧
    (get_system_status jobs cutoff).pending_jobs +
        (get_system_status jobs cutoff).running_jobs +
        (get_system_status jobs cutoff).completed_jobs +
        (get_system_status jobs cutoff).failed_jobs =
      (get_system_status jobs cutoff).total_jobs ∧
    (jobs = [] → (get_system_status jobs cutoff).success_rate = 0) ∧
    (jobs ≠ [] →
      |(get_system_status jobs cutoff).success_rate -
          ((get_system_status jobs cutoff).completed_jobs : ℚ) /
            ((get_system_status jobs cutoff).total_jobs : ℚ) * 100| ≤ 1 / 200) ∧
    ((get_system_status jobs cutoff).system_health = "healthy" ↔
      ((get_system_status jobs cutoff).failed_jobs : ℚ) <
        ((get_system_status jobs cutoff).total_jobs : ℚ) * (1 / 10)) ∧
    (jobs = [] → (get_system_status jobs cutoff).system_health = "degraded") := by
  refine ⟨rfl, ?_, ?_, ?_, ?_, ?_⟩
  · exact length_filter_status_partition jobs
  · rintro rfl
    simp [get_system_status, round2]
  · intro hne
    have hpos : 0 < jobs.length := List.length_pos.2 hne
    have hrate : (get_system_status jobs cutoff).success_rate =
        round2 ((((jobs.filter
            (fun j => decide (j.status = JobStatus.completed))).length : ℚ)) /
          (jobs.length : ℚ) * 100) := by
      simp only [get_system_status]
      rw [if_pos hpos]
    rw [hrate]
    exact round2_abs_sub _
  · simp only [get_system_status]
    constructor
    · intro hh
      by_contra hlt
      rw [if_neg hlt] at hh
      exact absurd hh (by decide)
    · intro hlt
      rw [if_pos hlt]
  · rintro rfl
    simp [get_system_status]

/-- Witness for C10 (amended): the empty table is "degraded", and for a
single completed job the reported rate is within 1/200 of 100. -/
theorem get_system_status_spec_witness :
    (get_system_status [] 0).system_health = "degraded" ∧
    |(get_system_status [completedJob] 0).success_rate -
        ((get_system_status [completedJob] 0).completed_jobs : ℚ) /
          ((get_system_status [completedJob] 0).total_jobs : ℚ) * 100| ≤ 1 / 200 :=
  ⟨(get_system_status_spec [] 0).2.2.2.2.2 rfl,
   (get_system_status_spec [completedJob] 0).2.2.2.1 (by simp)⟩

/-! ## The Celery batch task (src/app/tasks/document_tasks.py, lines 63-127) -/

/-- The `Document` row as far as `process_document_batch` touches it. -/
structure Document where
  file_path : String
  extracted_text : Option String
  status : String
  processing_progress : ℚ
  error_message : Option String
deriving DecidableEq, Repr

/-- The documents table, keyed by id. -/
abbrev DocDB : Type := List (Nat × Document)

/-- `db.query(Document).filter(Document.id == id).first()`. -/
def dbLookup (db : DocDB) (id : Nat) : Option Document :=
  (List.find? (fun p => p.1 == id) db).map (fun p => p.2)

/-- In-place mutation of the row with the given id. -/
def dbUpdate (db : DocDB) (id : Nat) (d : Document) : DocDB :=
  List.map (fun p => if p.1 == id then (p.1, d) else p) db

/-- One entry of the `results` list: a dict with `document_id`, `status`,
and (depending on the branch) `text_length` or `error`. -/
structure BatchItem where
  document_id : Nat
  status : String
  text_length : Option Nat
  error : Option String
deriving DecidableEq, Repr

/-- The dict returned by `process_document_batch`. -/
structure BatchResult where
  total_documents : Nat
  results : List BatchItem
  status : String
deriving DecidableEq, Repr

/-- The `for i, document_id in enumerate(document_ids):` loop (lines
75-118): report `int((i / total) * 100)` before the item, then look the
document up (absent → `not_found`, continue), run the extraction
collaborator (failure is caught per item: the row is marked failed and the
loop continues), or mark the row completed.  Returns the table after the
final commit, the result entries and the reported progress values. -/
def batchLoop (extract : String → Except String String) (total : Nat) :
    DocDB → List Nat → Nat → DocDB × List BatchItem × List Nat
  | db, [], _ => (db, [], [])
  | db, id :: rest, i =>
      let report := i * 100 / total
      match dbLookup db id with
      | none =>
          let r := batchLoop extract total db rest (i + 1)
          (r.1, ⟨id, "not_found", none, none⟩ :: r.2.1, report :: r.2.2)
      | some doc =>
          match extract doc.file_path with
          | .ok text =>
              let d := { doc with
                extracted_text := some text
                status := "completed"
                processing_progress := 100 }
              let r := batchLoop extract total (dbUpdate db id d) rest (i + 1)
              (r.1, ⟨id, "completed", some text.length, none⟩ :: r.2.1,
                report :: r.2.2)
          | .error e =>
              let d := { doc with
                status := "failed"
                error_message := some e }
              let r := batchLoop extract total (dbUpdate db id d) rest (i + 1)
              (r.1, ⟨id, "failed", none, some e⟩ :: r.2.1, report :: r.2.2)

/-- `process_document_batch` (lines 63-127): run the loop from index 0,
commit all row changes once at the end, and return
`{total_documents, results, status: "completed"}` together with the
reported progress values and the committed table. -/
def process_document_batch (extract : String → Except String String)
    (db : DocDB) (ids : List Nat) : BatchResult × List Nat × DocDB :=
  let r := batchLoop extract ids.length db ids 0
  (⟨ids.length, r.2.1, "completed"⟩, r.2.2, r.1)

theorem batchLoop_results_ids (extract : String → Except String String)
    (total : Nat) (ids : List Nat) :
    ∀ (db : DocDB) (i : Nat),
      ((batchLoop extract total db ids i).2.1).map BatchItem.document_id = ids := by
  induction ids with
  | nil => intro db i; simp [batchLoop]
  | cons id rest ih =>
      intro db i
      cases hl : dbLookup db id with
      | none => simp [batchLoop, hl, ih]
      | some doc =>
          cases he : extract doc.file_path with
          | ok text => simp [batchLoop, hl, he, ih]
          | error e => simp [batchLoop, hl, he, ih]

theorem batchLoop_reports (extract : String → Except String String)
    (total : Nat) (ids : List Nat) :
    ∀ (db : DocDB) (i : Nat),
      (batchLoop extract total db ids i).2.2 =
        (List.range ids.length).map (fun k => (i + k) * 100 / total) := by
  induction ids with
  | nil => intro db i; simp [batchLoop]
  | cons id rest ih =>
      intro db i
      have hshift : ∀ db' : DocDB,
          (batchLoop extract total db' rest (i + 1)).2.2 =
            (List.range rest.length).map (fun k => (i + (k + 1)) * 100 / total) := by
        intro db'
        rw [ih db' (i + 1)]
        exact List.map_congr_left fun k _ => by rw [show i + 1 + k = i + (k + 1) by omega]
      have hr : (List.range (rest.length + 1)).map (fun k => (i + k) * 100 / total) =
          (i + 0) * 100 / total ::
            (List.range rest.length).map (fun k => (i + (k + 1)) * 100 / total) := by
        rw [List.range_succ_eq_map]
        simp [List.map_map, Function.comp]
      cases hl : dbLookup db id with
      | none => simp [batchLoop, hl, hshift, hr]
      | some doc =>
          cases he : extract doc.file_path with
          | ok text => simp [batchLoop, hl, he, hshift, hr]
          | error e => simp [batchLoop, hl, he, hshift, hr]

/-- Two documents present in the scenario table (ids 1 and 3; id 2 absent). -/
def doc1 : Document := ⟨"/files/a.pdf", none, "uploaded", 0, none⟩

/-- The second present document of the scenario table. -/
def doc3 : Document := ⟨"/files/b.pdf", none, "uploaded", 0, none⟩

/-- The scenario table for the batch of [1, 2, 3]. -/
def scenarioDocDB : DocDB := [(1, doc1), (3, doc3)]

/-- An extraction collaborator that always succeeds. -/
def okExtract : String → Except String String := fun _ => .ok "text"

/-- C9 (counterexample): for the batch [1, 2, 3] the progress reported
before the second item (index 1) is `int((1/3)*100) = 33`, which is not
`(1/3)*100 = 100/3` — the reported value is the integer truncation, not the
exact quotient. -/
theorem batch_progress_truncated_counterexample :
    ((process_document_batch okExtract scenarioDocDB [1, 2, 3]).2.1).get? 1 =
      some 33 ∧
    (((33 : ℕ) : ℚ) ≠ ((1 : ℚ) / 3) * 100) := by
  constructor
  · rfl
  · norm_num

/-- C9 (amended): `process_document_batch` walks the id list sequentially
and continues past individual failures — the result list has exactly one
entry per input id, in input order — returns `total_documents = |ids|`, and
before the item at index k reports `int((k / total) * 100)`, the integer
truncation of `(k/total)*100`; in the scenario [1, 2, 3] with id 2 absent,
the three entries are marked completed, not_found, completed. -/
theorem process_document_batch_spec (extract : String → Except String String)
    (db : DocDB) (ids : List Nat) :
    (process_document_batch extract db ids).1.total_documents = ids.length ∧
    ((process_document_batch extract db ids).1.results).map
        BatchItem.document_id = ids ∧
    (process_document_batch extract db ids).2.1 =
      (List.range ids.length).map (fun k => k * 100 / ids.length) ∧
    (∀ k, k < ids.length → (k * 100 / ids.length : ℕ) =
      ⌊((k : ℚ) / (ids.length : ℚ)) * 100⌋₊) ∧
    ((process_document_batch okExtract scenarioDocDB [1, 2, 3]).1.results).map
        BatchItem.status = ["completed", "not_found", "completed"] ∧
    (process_document_batch okExtract scenarioDocDB [1, 2, 3]).1.total_documents
      = 3 := by
  refine ⟨rfl, batchLoop_results_ids extract ids.length ids db 0, ?_, ?_, ?_, ?_⟩
  · rw [show (process_document_batch extract db ids).2.1 =
        (batchLoop extract ids.length db ids 0).2.2 from rfl]
    rw [batchLoop_reports extract ids.length ids db 0]
    simp
  · intro k _
    have hcast : ((k : ℚ) / (ids.length : ℚ)) * 100 =
        ((k * 100 : ℕ) : ℚ) / ((ids.length : ℕ) : ℚ) := by
      push_cast; ring
    rw [hcast, Nat.floor_div_eq_div]
  · rfl
  · rfl

/-- Witness for C9 (amended): the scenario batch has one entry per id in
order, and the report before index 1 of a 3-item batch is ⌊100/3⌋ = 33. -/
theorem process_document_batch_spec_witness :
    ((process_document_batch okExtract scenarioDocDB [1, 2, 3]).1.results).map
        BatchItem.document_id = [1, 2, 3] ∧
    (1 * 100 / 3 : ℕ) = ⌊((1 : ℚ) / (3 : ℚ)) * 100⌋₊ := by
  refine ⟨(process_document_batch_spec okExtract scenarioDocDB [1, 2, 3]).2.1, ?_⟩
  have h := (process_document_batch_spec okExtract scenarioDocDB
    [1, 2, 3]).2.2.2.1 1 (by norm_num)
  simpa using h

end Taskflow
